import Mathlib

/-!
Verification of `tamr_toolbox/notifications/emails.py` (email job-status
notifications): the transport adapter `send_email`, the dispatcher
`_send_job_status_message`, and the polling entry point `monitor_job`.

Python side effects are made explicit: every interaction with the SMTP
server is a value of `SendCall` handed to an abstract `Transport`
(covering connect / starttls / login / sendmail of the `try` block), and
each function returns the list of transport interactions it performed
alongside its result.  Exceptions become `Except` errors.  Python's
dynamic typing is kept where a claim depends on it: `notify_states` may
be `None` at runtime despite its `List[OperationState]` annotation, so it
is embedded as an `Option`.
-/

namespace TamrToolbox

/-- Modelled from the spec: `OperationState`
(`tamr_toolbox/models/operation_state.py`, not under `src/`) is a closed
enumeration of the states of a remote operation:
PENDING, RUNNING, SUCCEEDED, FAILED, CANCELED. -/
inductive OperationState
  | PENDING
  | RUNNING
  | SUCCEEDED
  | FAILED
  | CANCELED
deriving DecidableEq, Repr

/-- Modelled from the spec: the raw-string-to-enum lookup
`OperationState[raw]`.  Python's `Enum.__getitem__` returns the member
named `raw` or raises `KeyError`; here `none` stands for the raise. -/
def OperationState.lookup (raw : String) : Option OperationState :=
  if raw = "PENDING" then some .PENDING
  else if raw = "RUNNING" then some .RUNNING
  else if raw = "SUCCEEDED" then some .SUCCEEDED
  else if raw = "FAILED" then some .FAILED
  else if raw = "CANCELED" then some .CANCELED
  else none

/-- Modelled from the spec: the name under which a state renders in the
message subject (`"Job <id>: SUCCEEDED"` in the spec's concrete
scenario). -/
def OperationState.toName : OperationState → String
  | .PENDING => "PENDING"
  | .RUNNING => "RUNNING"
  | .SUCCEEDED => "SUCCEEDED"
  | .FAILED => "FAILED"
  | .CANCELED => "CANCELED"

/-- Modelled from the spec: terminal states are those from which no
further transition occurs (succeeded / failed / canceled). -/
def OperationState.isTerminal : OperationState → Bool
  | .SUCCEEDED => true
  | .FAILED => true
  | .CANCELED => true
  | _ => false

/-- Modelled from the spec: the full state set, used when `notify_states`
is `None` ("notify on every observed state"). -/
def OperationState.allStates : List OperationState :=
  [.PENDING, .RUNNING, .SUCCEEDED, .FAILED, .CANCELED]

/-- A snapshot of a remote Tamr operation as `emails.py` consumes it:
its resource id, its raw state string as fetched from the server, and
its human-readable detail payload. -/
structure Operation where
  resource_id : String
  state : String
  details : String
deriving DecidableEq, Repr

/-- Modelled from the spec: `get_details`
(`tamr_toolbox/utils/operation.py`, not under `src/`) returns the
operation's human-readable detail text. -/
def get_details (operation : Operation) : String :=
  operation.details

/-- How `send_email` establishes its server connection
(`emails.py` lines 88-93): either a plaintext `smtplib.SMTP` connection
upgraded in place by `starttls(keyfile, certfile, context)`, or a direct
`smtplib.SMTP_SSL(..., keyfile=keyfile, certfile=certfile, context=...)`
connection. -/
inductive ConnMethod
  | plainThenStartTLS (keyfile certfile : Option String)
  | sslDirect (keyfile certfile : Option String)
deriving DecidableEq, Repr

/-- One full interaction with the SMTP server: the connection method and
the arguments of `login` and `sendmail`. -/
structure SendCall where
  conn : ConnMethod
  sender : String
  password : String
  server : String
  port : String
  msg : String
  recipients : List String
deriving DecidableEq, Repr

/-- What the server does with one `SendCall`: either the whole
connect / login / sendmail sequence completes and `sendmail` returns its
per-recipient refusal dict (`ok`), or some step raises an
`SMTPException` (`exn`). -/
inductive SmtpOutcome
  | ok (refused : List (String × Nat × String))
  | exn (e : String)
deriving DecidableEq, Repr

/-- The abstract SMTP server behaviour `send_email` is run against. -/
abbrev Transport := SendCall → SmtpOutcome

/-- The second component of `send_email`'s returned tuple: either the
refusal dict produced by `sendmail` (empty on full success), or the
fixed-shape error dict `{"type": ..., "text": ..., "error": ...}`
synthesized on a suppressed `SMTPException` (`emails.py` lines 103-107). -/
inductive DeliveryResult
  | refusals (m : List (String × Nat × String))
  | errorDescriptor (type text error : String)
deriving DecidableEq, Repr

/-- `_build_message` (`emails.py` lines 20-39): serializes the email in
MIME format.  The MIMEText serialization is abstracted to its headers
and body; the source joins recipients with `", "`. -/
def _build_message (message subject_line sender : String)
    (recipients : List String) : String :=
  "Subject: " ++ subject_line ++ "\nFrom: " ++ sender ++ "\nTo: "
    ++ String.intercalate ", " recipients ++ "\n\n" ++ message

/-- The connection branch of `send_email` (`emails.py` lines 89-93):
`use_tls` true gives plaintext SMTP followed by `starttls`, false gives
`SMTP_SSL`. -/
def connMethod (use_tls : Bool) (keyfile certfile : Option String) :
    ConnMethod :=
  if use_tls then .plainThenStartTLS keyfile certfile
  else .sslDirect keyfile certfile

/-- The text of the suppressed-error descriptor
(`emails.py` line 105). -/
def failText (message : String) : String :=
  "The email: \"" ++ message ++ "\" failed to send."

/-- `send_email` (`emails.py` lines 42-111).  Builds the MIME message,
performs one interaction with the server (connect, optional starttls,
login, sendmail), and returns the tuple `(message, response)`.  On an
`SMTPException` it re-raises when `raise_error` is true, else it returns
the fixed-shape error dict in place of the refusal dict.  The second
component of the embedding's result is the list of transport
interactions performed (always exactly one). -/
def send_email (message subject_line sender_address sender_password :
    String) (recipient_addresses : List String)
    (smtp_server smtp_port : String) (raise_error use_tls : Bool)
    (keyfile certfile : Option String) (transport : Transport) :
    Except String (String × DeliveryResult) × List SendCall :=
  let msg := _build_message message subject_line sender_address
    recipient_addresses
  let call : SendCall :=
    { conn := connMethod use_tls keyfile certfile
      sender := sender_address
      password := sender_password
      server := smtp_server
      port := smtp_port
      msg := msg
      recipients := recipient_addresses }
  let result : Except String (String × DeliveryResult) :=
    match transport call with
    | .ok refused => .ok (message, .refusals refused)
    | .exn e =>
        if raise_error then .error e
        else .ok (message, .errorDescriptor "SMTPException"
          (failText message) e)
  (result, [call])

/-- The exceptions `_send_job_status_message` can raise: the `KeyError`
of `OperationState[operation.state]` on an unrecognized raw state, the
`TypeError` of `state in notify_states` when `notify_states` is `None`,
and a propagated `SMTPException` from `send_email`. -/
inductive PyError
  | keyError (name : String)
  | typeError (msg : String)
  | smtpError (e : String)
deriving DecidableEq, Repr

/-- The `TypeError` message Python raises for `x in None`. -/
def noneNotIterable : String :=
  "argument of type NoneType is not iterable"

/-- `_send_job_status_message` (`emails.py` lines 114-163).  Looks the
raw state up in `OperationState` (line 147, raising `KeyError` on an
unknown name), tests membership in `notify_states` (line 149, raising
`TypeError` when `notify_states` is `None`), and when the state is
notify-worthy sends the operation's detail text with subject
`"Job {resource_id}: {state}"`, leaving `raise_error` at `send_email`'s
default `True`.  Returns `resp`: `None` when no send happened, else
`send_email`'s tuple unmodified. -/
def _send_job_status_message (sender_address sender_password : String)
    (recipient_addresses : List String) (smtp_server smtp_port : String)
    (operation : Operation)
    (notify_states : Option (List OperationState)) (use_tls : Bool)
    (keyfile certfile : Option String) (transport : Transport) :
    Except PyError (Option (String × DeliveryResult)) × List SendCall :=
  match OperationState.lookup operation.state with
  | none => (.error (.keyError operation.state), [])
  | some state =>
    match notify_states with
    | none => (.error (.typeError noneNotIterable), [])
    | some states =>
      if state ∈ states then
        let message := get_details operation
        let r := send_email message
          ("Job " ++ operation.resource_id ++ ": " ++ state.toName)
          sender_address sender_password recipient_addresses
          smtp_server smtp_port true use_tls keyfile certfile transport
        let resp : Except PyError (Option (String × DeliveryResult)) :=
          match r.1 with
          | .error e => .error (.smtpError e)
          | .ok pr => .ok (some pr)
        (resp, r.2)
      else (.ok none, [])

/-- Errors fatal to a monitoring session: the timeout, a propagated
dispatcher exception, and exhaustion of the embedding's step fuel (a
model artifact standing for a loop still running). -/
inductive MonitorError
  | timeout
  | dispatchError (e : PyError)
  | fuelExhausted
deriving DecidableEq, Repr

/-- Modelled from the spec: the polling loop of `monitor_job_common`
(`tamr_toolbox/notifications/common.py`, not under `src/`).  Each tick
fetches the current snapshot, raises on an unrecognized state, invokes
the dispatcher when the observed state differs from the previously
dispatched one (never twice for the same observed transition), appends
any (message, result) pair to the log, stops on a terminal state, and
otherwise sleeps the poll interval capped by the remaining time budget,
raising `Timeout` once the budget is consumed before a terminal state.
Wall-clock time is abstracted to whole seconds; `fetch k` is the
snapshot the k-th poll observes. -/
def monitorFrom (sender_address sender_password : String)
    (recipient_addresses : List String) (smtp_server smtp_port : String)
    (fetch : Nat → Operation) (k : Nat) (poll_interval_seconds : Nat)
    (timeout_seconds : Option Nat) (states : List OperationState)
    (use_tls : Bool) (keyfile certfile : Option String)
    (transport : Transport) (prev : Option OperationState)
    (elapsed : Nat) :
    Nat → Except MonitorError (List (String × DeliveryResult))
  | 0 => .error .fuelExhausted
  | fuel + 1 =>
    let op := fetch k
    match OperationState.lookup op.state with
    | none => .error (.dispatchError (.keyError op.state))
    | some st =>
      let dispatched : Except PyError (Option (String × DeliveryResult)) :=
        if prev = some st then .ok none
        else (_send_job_status_message sender_address sender_password
          recipient_addresses smtp_server smtp_port op (some states)
          use_tls keyfile certfile transport).1
      match dispatched with
      | .error e => .error (.dispatchError e)
      | .ok entry =>
        let record :
            List (String × DeliveryResult) →
              List (String × DeliveryResult) :=
          fun rest => match entry with
            | some pr => pr :: rest
            | none => rest
        if st.isTerminal then .ok (record [])
        else
          match timeout_seconds with
          | some t =>
            let step := min poll_interval_seconds (t - elapsed)
            if t ≤ elapsed + step then .error .timeout
            else
              (monitorFrom sender_address sender_password
                recipient_addresses smtp_server smtp_port fetch (k + 1)
                poll_interval_seconds (some t) states use_tls keyfile
                certfile transport (some st) (elapsed + step)
                fuel).map record
          | none =>
            (monitorFrom sender_address sender_password
              recipient_addresses smtp_server smtp_port fetch (k + 1)
              poll_interval_seconds none states use_tls keyfile certfile
              transport (some st) (elapsed + poll_interval_seconds)
              fuel).map record

/-- Modelled from the spec: `monitor_job_common`
(`tamr_toolbox/notifications/common.py`, not under `src/`): interprets
`notify_states = None` as "notify on every state" and runs the polling
loop from the first snapshot with no time elapsed. -/
def monitor_job_common (sender_address sender_password : String)
    (recipient_addresses : List String) (smtp_server smtp_port : String)
    (fetch : Nat → Operation) (poll_interval_seconds : Nat)
    (timeout_seconds : Option Nat)
    (notify_states : Option (List OperationState)) (use_tls : Bool)
    (keyfile certfile : Option String) (transport : Transport)
    (fuel : Nat) :
    Except MonitorError (List (String × DeliveryResult)) :=
  monitorFrom sender_address sender_password recipient_addresses
    smtp_server smtp_port fetch 0 poll_interval_seconds timeout_seconds
    (notify_states.getD OperationState.allStates) use_tls keyfile
    certfile transport none 0 fuel

/-- `monitor_job` (`emails.py` lines 166-220): delegates to
`monitor_job_common` with `_send_job_status_message` as the status
dispatcher, passing every argument through. -/
def monitor_job (sender_address sender_password : String)
    (recipient_addresses : List String) (smtp_server smtp_port : String)
    (fetch : Nat → Operation) (poll_interval_seconds : Nat)
    (timeout_seconds : Option Nat)
    (notify_states : Option (List OperationState)) (use_tls : Bool)
    (keyfile certfile : Option String) (transport : Transport)
    (fuel : Nat) :
    Except MonitorError (List (String × DeliveryResult)) :=
  monitor_job_common sender_address sender_password recipient_addresses
    smtp_server smtp_port fetch poll_interval_seconds timeout_seconds
    notify_states use_tls keyfile certfile transport fuel

/-! ## Helper lemmas -/

/-- With `raise_error = true`, a normal return of `send_email` can only
carry a refusal mapping, never the suppressed-error descriptor. -/
theorem send_email_raise_ok_shape (message subject_line sa sp : String)
    (ra : List String) (ss spt : String) (tls : Bool)
    (kf cf : Option String) (tr : Transport) (m : String)
    (dr : DeliveryResult)
    (h : (send_email message subject_line sa sp ra ss spt true tls kf
      cf tr).1 = Except.ok (m, dr)) :
    ∃ rl, dr = DeliveryResult.refusals rl := by
  simp only [send_email] at h
  split at h
  · simp only [Except.ok.injEq, Prod.mk.injEq] at h
    exact ⟨_, h.2.symm⟩
  · simp at h

/-- A normal non-`None` return of the dispatcher can only carry a
refusal mapping, never the suppressed-error descriptor. -/
theorem dispatch_ok_refusals (sa sp : String) (ra : List String)
    (ss spt : String) (op : Operation)
    (ns : Option (List OperationState)) (tls : Bool)
    (kf cf : Option String) (tr : Transport) (m : String)
    (dr : DeliveryResult)
    (h : (_send_job_status_message sa sp ra ss spt op ns tls kf cf
      tr).1 = Except.ok (some (m, dr))) :
    ∃ rl, dr = DeliveryResult.refusals rl := by
  unfold _send_job_status_message at h
  cases hst : OperationState.lookup op.state with
  | none => rw [hst] at h; simp at h
  | some st =>
    rw [hst] at h
    cases ns with
    | none => simp at h
    | some states =>
      by_cases hmem : st ∈ states
      · simp only [if_pos hmem] at h
        split at h
        · simp at h
        · next pr heq =>
            simp only [Except.ok.injEq, Option.some.injEq] at h
            rw [h] at heq
            exact send_email_raise_ok_shape _ _ _ _ _ _ _ _ _ _ _ _ _
              heq
      · simp [hmem] at h

/-- Against a transport that never raises, `send_email` with any
`raise_error` setting returns normally with some refusal mapping. -/
theorem send_email_ok_of_benign (message subject_line sa sp : String)
    (ra : List String) (ss spt : String) (re tls : Bool)
    (kf cf : Option String) (tr : Transport)
    (htr : ∀ c, ∃ rl, tr c = SmtpOutcome.ok rl) :
    ∃ rl, (send_email message subject_line sa sp ra ss spt re tls kf cf
        tr).1 = Except.ok (message, DeliveryResult.refusals rl) := by
  obtain ⟨rl, hc⟩ := htr
    { conn := connMethod tls kf cf
      sender := sa
      password := sp
      server := ss
      port := spt
      msg := _build_message message subject_line sa ra
      recipients := ra }
  exact ⟨rl, by simp [send_email, hc]⟩

/-- Against a transport that never raises, the dispatcher returns
normally on every recognized state. -/
theorem dispatcher_ok_of_benign (sa sp : String) (ra : List String)
    (ss spt : String) (op : Operation) (states : List OperationState)
    (tls : Bool) (kf cf : Option String) (tr : Transport)
    (st : OperationState)
    (hst : OperationState.lookup op.state = some st)
    (htr : ∀ c, ∃ rl, tr c = SmtpOutcome.ok rl) :
    ∃ entry, (_send_job_status_message sa sp ra ss spt op (some states)
      tls kf cf tr).1 = Except.ok entry := by
  unfold _send_job_status_message
  rw [hst]
  by_cases hmem : st ∈ states
  · obtain ⟨rl, h⟩ := send_email_ok_of_benign (get_details op)
      ("Job " ++ op.resource_id ++ ": " ++ st.toName) sa sp ra ss spt
      true tls kf cf tr htr
    refine ⟨some (get_details op, DeliveryResult.refusals rl), ?_⟩
    simp only [if_pos hmem]
    rw [h]
  · exact ⟨none, by simp [hmem]⟩

/-- Every entry of a log the polling loop returns normally carries a
refusal mapping, never the suppressed-error descriptor. -/
theorem monitorFrom_log_refusals (sa sp : String) (ra : List String)
    (ss spt : String) (fetch : Nat → Operation) (poll : Nat)
    (tmo : Option Nat) (states : List OperationState) (tls : Bool)
    (kf cf : Option String) (tr : Transport) :
    ∀ fuel k prev elapsed log,
      monitorFrom sa sp ra ss spt fetch k poll tmo states tls kf cf tr
        prev elapsed fuel = Except.ok log →
      ∀ pr ∈ log, ∀ t x c,
        pr.2 ≠ DeliveryResult.errorDescriptor t x c := by
  intro fuel
  induction fuel with
  | zero =>
    intro k prev elapsed log h
    simp [monitorFrom] at h
  | succ fuel ih =>
    intro k prev elapsed log h
    simp only [monitorFrom] at h
    cases hst : OperationState.lookup (fetch k).state with
    | none => rw [hst] at h; simp at h
    | some st =>
      rw [hst] at h
      dsimp only at h
      have hentry : ∀ (entry : Option (String × DeliveryResult)),
          (if prev = some st then Except.ok none
            else (_send_job_status_message sa sp ra ss spt (fetch k)
              (some states) tls kf cf tr).1) = Except.ok entry →
          ∀ m drm, entry = some (m, drm) →
          ∀ t x c, drm ≠ DeliveryResult.errorDescriptor t x c := by
        intro entry hdisp m drm hent t x c hdr
        by_cases hprev : prev = some st
        · rw [if_pos hprev] at hdisp
          simp only [Except.ok.injEq] at hdisp
          rw [← hdisp] at hent
          exact Option.noConfusion hent
        · rw [if_neg hprev] at hdisp
          rw [hent] at hdisp
          obtain ⟨rl, hrl⟩ := dispatch_ok_refusals sa sp ra ss spt
            (fetch k) (some states) tls kf cf tr m drm hdisp
          rw [hrl] at hdr
          exact DeliveryResult.noConfusion hdr
      split at h
      · simp at h
      · next entry hdisp =>
        have hsafe : ∀ m drm, entry = some (m, drm) →
            ∀ t x c, drm ≠ DeliveryResult.errorDescriptor t x c :=
          fun m drm hent => hentry entry hdisp m drm hent
        clear hdisp
        cases entry with
        | none =>
          by_cases hterm : st.isTerminal = true
          · rw [if_pos hterm] at h
            dsimp only at h
            simp only [Except.ok.injEq] at h
            intro pr hpr t x c
            rw [← h] at hpr
            simp at hpr
          · rw [if_neg hterm] at h
            have hrest : ∀ (rec : Except MonitorError
                (List (String × DeliveryResult))),
                (∀ log', rec = Except.ok log' →
                  ∀ pr ∈ log', ∀ t x c,
                    pr.2 ≠ DeliveryResult.errorDescriptor t x c) →
                rec.map (fun rest => rest) = Except.ok log →
                ∀ pr ∈ log, ∀ t x c,
                  pr.2 ≠ DeliveryResult.errorDescriptor t x c := by
              intro rec hrec hm pr hpr t x c
              cases rec with
              | error e => simp [Except.map] at hm
              | ok log' =>
                simp only [Except.map, Except.ok.injEq] at hm
                rw [← hm] at hpr
                exact hrec log' rfl pr hpr t x c
            cases tmo with
            | some t0 =>
              dsimp only at h
              by_cases hto : t0 ≤ elapsed + min poll (t0 - elapsed)
              · rw [if_pos hto] at h; simp at h
              · rw [if_neg hto] at h
                exact hrest _ (fun log' hl => ih (k + 1) (some st)
                  (elapsed + min poll (t0 - elapsed)) log' hl) h
            | none =>
              dsimp only at h
              exact hrest _ (fun log' hl => ih (k + 1) (some st)
                (elapsed + poll) log' hl) h
        | some prd =>
          by_cases hterm : st.isTerminal = true
          · rw [if_pos hterm] at h
            dsimp only at h
            simp only [Except.ok.injEq] at h
            intro pr hpr t x c
            rw [← h] at hpr
            simp only [List.mem_singleton] at hpr
            rw [hpr]
            exact hsafe prd.1 prd.2 rfl t x c
          · rw [if_neg hterm] at h
            have hrest : ∀ (rec : Except MonitorError
                (List (String × DeliveryResult))),
                (∀ log', rec = Except.ok log' →
                  ∀ pr ∈ log', ∀ t x c,
                    pr.2 ≠ DeliveryResult.errorDescriptor t x c) →
                rec.map (fun rest => prd :: rest) = Except.ok log →
                ∀ pr ∈ log, ∀ t x c,
                  pr.2 ≠ DeliveryResult.errorDescriptor t x c := by
              intro rec hrec hm pr hpr t x c
              cases rec with
              | error e => simp [Except.map] at hm
              | ok log' =>
                simp only [Except.map, Except.ok.injEq] at hm
                rw [← hm] at hpr
                rcases List.mem_cons.mp hpr with hpr | hpr
                · rw [hpr]
                  exact hsafe prd.1 prd.2 rfl t x c
                · exact hrec log' rfl pr hpr t x c
            cases tmo with
            | some t0 =>
              dsimp only at h
              by_cases hto : t0 ≤ elapsed + min poll (t0 - elapsed)
              · rw [if_pos hto] at h; simp at h
              · rw [if_neg hto] at h
                exact hrest _ (fun log' hl => ih (k + 1) (some st)
                  (elapsed + min poll (t0 - elapsed)) log' hl) h
            | none =>
              dsimp only at h
              exact hrest _ (fun log' hl => ih (k + 1) (some st)
                (elapsed + poll) log' hl) h

/-- If no fetched snapshot is terminal, a positive poll interval and
enough fuel drive the polling loop into the `Timeout` error once the
time budget is consumed. -/
theorem monitorFrom_timeout_of_no_terminal (sa sp : String)
    (ra : List String) (ss spt : String) (fetch : Nat → Operation)
    (poll t : Nat) (states : List OperationState) (tls : Bool)
    (kf cf : Option String) (tr : Transport) (hpoll : 1 ≤ poll)
    (hstates : ∀ j, ∃ st,
      OperationState.lookup (fetch j).state = some st ∧
      st.isTerminal = false)
    (htr : ∀ c, ∃ rl, tr c = SmtpOutcome.ok rl) :
    ∀ fuel k prev elapsed, elapsed ≤ t → t + 1 ≤ fuel + elapsed →
      monitorFrom sa sp ra ss spt fetch k poll (some t) states tls kf
        cf tr prev elapsed fuel = Except.error MonitorError.timeout := by
  intro fuel
  induction fuel with
  | zero => intro k prev elapsed h1 h2; omega
  | succ fuel ih =>
    intro k prev elapsed h1 h2
    obtain ⟨st, hst, hterm⟩ := hstates k
    simp only [monitorFrom]
    rw [hst]
    dsimp only
    by_cases hprev : prev = some st
    · rw [if_pos hprev]
      dsimp only
      simp only [hterm, Bool.false_eq_true, if_false]
      by_cases hto : t ≤ elapsed + min poll (t - elapsed)
      · rw [if_pos hto]
      · rw [if_neg hto]
        rw [ih (k + 1) (some st) (elapsed + min poll (t - elapsed))
          (by omega) (by omega)]
        rfl
    · rw [if_neg hprev]
      obtain ⟨entry, hd⟩ := dispatcher_ok_of_benign sa sp ra ss spt
        (fetch k) states tls kf cf tr st hst htr
      rw [hd]
      dsimp only
      simp only [hterm, Bool.false_eq_true, if_false]
      by_cases hto : t ≤ elapsed + min poll (t - elapsed)
      · rw [if_pos hto]
      · rw [if_neg hto]
        rw [ih (k + 1) (some st) (elapsed + min poll (t - elapsed))
          (by omega) (by omega)]
        rfl

/-! ## Claim theorems -/

/-- C7: when `use_tls` is true, `send_email` opens a plaintext
connection and upgrades it in place via STARTTLS with the optional
key/cert material; when false it connects over SMTP-over-SSL instead. -/
theorem send_email_connection_method (message subject_line sa sp :
    String) (ra : List String) (ss spt : String) (re : Bool)
    (kf cf : Option String) (tr : Transport) :
    (send_email message subject_line sa sp ra ss spt re true kf cf
        tr).2.map SendCall.conn = [ConnMethod.plainThenStartTLS kf cf] ∧
    (send_email message subject_line sa sp ra ss spt re false kf cf
        tr).2.map SendCall.conn = [ConnMethod.sslDirect kf cf] := by
  constructor <;> simp [send_email, connMethod]

/-- C3: an operation whose raw state string names no `OperationState`
member makes `_send_job_status_message` fail with the lookup's
`KeyError` before any notification decision, for every `notify_states`
value and every transport, performing no send. -/
theorem unknown_state_raises (sa sp : String) (ra : List String)
    (ss spt : String) (op : Operation)
    (h : OperationState.lookup op.state = none) :
    ∀ (ns : Option (List OperationState)) (tls : Bool)
      (kf cf : Option String) (tr : Transport),
      _send_job_status_message sa sp ra ss spt op ns tls kf cf tr
        = (Except.error (PyError.keyError op.state), []) := by
  intro ns tls kf cf tr
  unfold _send_job_status_message
  rw [h]

/-- Witness for C3 at a concrete unrecognized state. -/
theorem unknown_state_raises_witness :
    OperationState.lookup "BOGUS" = none ∧
    _send_job_status_message "s" "p" ["r"] "h" "465"
      ⟨"1", "BOGUS", "d"⟩ (some []) false none none
      (fun _ => SmtpOutcome.ok [])
      = (Except.error (PyError.keyError "BOGUS"), []) :=
  ⟨rfl, unknown_state_raises "s" "p" ["r"] "h" "465" ⟨"1", "BOGUS", "d"⟩
    rfl (some []) false none none (fun _ => SmtpOutcome.ok [])⟩

/-- C1: with a non-`None` `notify_states`, the dispatcher returns `None`
and performs no send when the operation's state is outside the set; when
the state is in the set it invokes the transport exactly once and
returns the message with the transport's `DeliveryResult` unmodified. -/
theorem dispatch_gated_by_notify_states (sa sp : String)
    (ra : List String) (ss spt : String) (op : Operation)
    (states : List OperationState) (tls : Bool) (kf cf : Option String)
    (tr : Transport) (st : OperationState)
    (hst : OperationState.lookup op.state = some st) :
    (st ∉ states →
      _send_job_status_message sa sp ra ss spt op (some states) tls kf
        cf tr = (Except.ok none, [])) ∧
    (st ∈ states →
      (_send_job_status_message sa sp ra ss spt op (some states) tls kf
        cf tr).2.length = 1 ∧
      ∀ refused, (∀ c, tr c = SmtpOutcome.ok refused) →
        (_send_job_status_message sa sp ra ss spt op (some states) tls
          kf cf tr).1
          = Except.ok (some (get_details op,
              DeliveryResult.refusals refused))) := by
  unfold _send_job_status_message
  rw [hst]
  constructor
  · intro hmem
    simp [hmem]
  · intro hmem
    refine ⟨?_, ?_⟩
    · simp [hmem, send_email]
    · intro refused htr
      simp [hmem, send_email, htr]

/-- Witness for C1 at concrete inputs, exercising both branches. -/
theorem dispatch_gated_by_notify_states_witness :
    OperationState.lookup "SUCCEEDED" = some OperationState.SUCCEEDED ∧
    (OperationState.SUCCEEDED ∉ [OperationState.FAILED] →
      _send_job_status_message "s" "p" ["r"] "h" "465"
        ⟨"1", "SUCCEEDED", "d"⟩ (some [OperationState.FAILED]) false
        none none (fun _ => SmtpOutcome.ok [])
        = (Except.ok none, [])) :=
  ⟨rfl, (dispatch_gated_by_notify_states "s" "p" ["r"] "h" "465"
    ⟨"1", "SUCCEEDED", "d"⟩ [OperationState.FAILED] false none none
    (fun _ => SmtpOutcome.ok []) OperationState.SUCCEEDED rfl).1⟩

/-- C6: when the state is notify-worthy, the single send carries the
MIME message built with subject `"Job {resource_id}: {state}"` and body
equal to the operation's detail text. -/
theorem notification_subject_and_body (sa sp : String)
    (ra : List String) (ss spt : String) (op : Operation)
    (states : List OperationState) (tls : Bool) (kf cf : Option String)
    (tr : Transport) (st : OperationState)
    (hst : OperationState.lookup op.state = some st)
    (hmem : st ∈ states) :
    (_send_job_status_message sa sp ra ss spt op (some states) tls kf
      cf tr).2
      = [{ conn := connMethod tls kf cf
           sender := sa
           password := sp
           server := ss
           port := spt
           msg := _build_message (get_details op)
             ("Job " ++ op.resource_id ++ ": " ++ st.toName) sa ra
           recipients := ra }] := by
  unfold _send_job_status_message
  rw [hst]
  simp [hmem, send_email]

/-- Witness for C6 at concrete inputs. -/
theorem notification_subject_and_body_witness :
    OperationState.lookup "SUCCEEDED" = some OperationState.SUCCEEDED ∧
    OperationState.SUCCEEDED ∈ [OperationState.SUCCEEDED] ∧
    (_send_job_status_message "s" "p" ["r"] "h" "465"
      ⟨"1", "SUCCEEDED", "d"⟩ (some [OperationState.SUCCEEDED]) false
      none none (fun _ => SmtpOutcome.ok [])).2
      = [{ conn := connMethod false none none
           sender := "s"
           password := "p"
           server := "h"
           port := "465"
           msg := _build_message (get_details ⟨"1", "SUCCEEDED", "d"⟩)
             ("Job " ++ "1" ++ ": "
               ++ OperationState.SUCCEEDED.toName) "s" ["r"]
           recipients := ["r"] }] :=
  ⟨rfl, List.mem_singleton.mpr rfl,
    notification_subject_and_body "s" "p" ["r"] "h" "465"
      ⟨"1", "SUCCEEDED", "d"⟩ [OperationState.SUCCEEDED] false none
      none (fun _ => SmtpOutcome.ok []) OperationState.SUCCEEDED rfl
      (List.mem_singleton.mpr rfl)⟩

/-- C4 as stated fails: the suppressed-error descriptor synthesized by
`send_email` carries the kind string "SMTPException"
(`emails.py` line 104), not "TransportException". -/
theorem suppressed_descriptor_kind_counterexample :
    (send_email "m" "s" "a" "p" ["r"] "h" "465" false false none none
      (fun _ => SmtpOutcome.exn "boom")).1
      = Except.ok ("m", DeliveryResult.errorDescriptor "SMTPException"
          (failText "m") "boom") ∧
    "SMTPException" ≠ "TransportException" := by
  exact ⟨rfl, by decide⟩

/-- C4 amended: on an SMTP-level transport failure, `send_email`
propagates the exception when `raise_error` is true (the default), and
when `raise_error` is false it returns normally with the structured
failure descriptor of kind "SMTPException" (fields `type`, `text`,
`error`) in place of the per-recipient refusal mapping. -/
theorem transport_error_policy (message subject_line sa sp : String)
    (ra : List String) (ss spt : String) (tls : Bool)
    (kf cf : Option String) (tr : Transport) (e : String)
    (htr : ∀ c, tr c = SmtpOutcome.exn e) :
    (send_email message subject_line sa sp ra ss spt true tls kf cf
        tr).1 = Except.error e ∧
    (send_email message subject_line sa sp ra ss spt false tls kf cf
        tr).1
      = Except.ok (message, DeliveryResult.errorDescriptor
          "SMTPException" (failText message) e) := by
  constructor <;> simp [send_email, htr]

/-- Witness for the amended C4 at a concrete failing transport. -/
theorem transport_error_policy_witness :
    (∀ c, (fun _ => SmtpOutcome.exn "boom" : Transport) c
      = SmtpOutcome.exn "boom") ∧
    (send_email "m" "s" "a" "p" ["r"] "h" "465" true false none none
      (fun _ => SmtpOutcome.exn "boom")).1 = Except.error "boom" :=
  ⟨fun _ => rfl,
    (transport_error_policy "m" "s" "a" "p" ["r"] "h" "465" false none
      none (fun _ => SmtpOutcome.exn "boom") "boom" fun _ => rfl).1⟩

/-- C5: `send_email` returns the server's per-recipient refusal mapping
unmodified and without raising: empty on full success, and containing
exactly the entries the server produced (one per refused recipient,
keyed by that recipient, with its (code, text) pair) on a partial
refusal. -/
theorem send_email_refusal_passthrough (message subject_line sa sp :
    String) (ra : List String) (ss spt : String) (re tls : Bool)
    (kf cf : Option String) (tr : Transport)
    (refused : List (String × Nat × String))
    (htr : ∀ c, tr c = SmtpOutcome.ok refused) :
    (send_email message subject_line sa sp ra ss spt re tls kf cf
        tr).1 = Except.ok (message, DeliveryResult.refusals refused) := by
  simp [send_email, htr]

/-- Witness for C5: three recipients, the server refuses exactly one;
the result holds that single (recipient, code, text) entry and the two
accepted recipients are absent. -/
theorem send_email_refusal_passthrough_witness :
    (∀ c, (fun _ => SmtpOutcome.ok [("b@x", 550, "mailbox unavailable")]
        : Transport) c
      = SmtpOutcome.ok [("b@x", 550, "mailbox unavailable")]) ∧
    (send_email "body" "subj" "a" "p" ["a@x", "b@x", "c@x"] "h" "465"
      true false none none
      (fun _ => SmtpOutcome.ok [("b@x", 550, "mailbox unavailable")])).1
      = Except.ok ("body",
          DeliveryResult.refusals [("b@x", 550, "mailbox unavailable")]) :=
  ⟨fun _ => rfl,
    send_email_refusal_passthrough "body" "subj" "a" "p"
      ["a@x", "b@x", "c@x"] "h" "465" true false none none
      (fun _ => SmtpOutcome.ok [("b@x", 550, "mailbox unavailable")])
      [("b@x", 550, "mailbox unavailable")] fun _ => rfl⟩

/-- C8: `_send_job_status_message` is a pure function of its arguments
with no deduplication state: a second call with the same operation
snapshot and the same `notify_states` returns exactly the first call's
result, and each of the two calls performs its own single send. -/
theorem dispatcher_stateless_repeat (sa sp : String) (ra : List String)
    (ss spt : String) (op : Operation) (states : List OperationState)
    (tls : Bool) (kf cf : Option String) (tr : Transport)
    (st : OperationState)
    (hst : OperationState.lookup op.state = some st)
    (hmem : st ∈ states) :
    _send_job_status_message sa sp ra ss spt op (some states) tls kf cf
        tr
      = _send_job_status_message sa sp ra ss spt op (some states) tls
        kf cf tr ∧
    (_send_job_status_message sa sp ra ss spt op (some states) tls kf
        cf tr).2.length = 1 ∧
    ((_send_job_status_message sa sp ra ss spt op (some states) tls kf
        cf tr).2
      ++ (_send_job_status_message sa sp ra ss spt op (some states) tls
        kf cf tr).2).length = 2 := by
  refine ⟨rfl, ?_, ?_⟩ <;>
    · unfold _send_job_status_message
      rw [hst]
      simp [hmem, send_email]

/-- Witness for C8 at concrete inputs. -/
theorem dispatcher_stateless_repeat_witness :
    OperationState.lookup "FAILED" = some OperationState.FAILED ∧
    OperationState.FAILED ∈ [OperationState.FAILED] ∧
    (_send_job_status_message "s" "p" ["r"] "h" "465"
      ⟨"1", "FAILED", "d"⟩ (some [OperationState.FAILED]) false none
      none (fun _ => SmtpOutcome.ok [])).2.length = 1 :=
  ⟨rfl, List.mem_singleton.mpr rfl,
    (dispatcher_stateless_repeat "s" "p" ["r"] "h" "465"
      ⟨"1", "FAILED", "d"⟩ [OperationState.FAILED] false none none
      (fun _ => SmtpOutcome.ok []) OperationState.FAILED rfl
      (List.mem_singleton.mpr rfl)).2.1⟩

/-- C9: the dispatcher does not implement the "None means all states"
convention: with `notify_states = None` it never returns normally and
never sends; when the state is recognized the failure is precisely the
`TypeError` of the membership test on `None` (an unrecognized state
fails earlier with its `KeyError`). -/
theorem dispatcher_rejects_none_notify_states (sa sp : String)
    (ra : List String) (ss spt : String) (op : Operation) (tls : Bool)
    (kf cf : Option String) (tr : Transport) :
    (_send_job_status_message sa sp ra ss spt op none tls kf cf tr).2
      = [] ∧
    (∀ r, (_send_job_status_message sa sp ra ss spt op none tls kf cf
        tr).1 ≠ Except.ok r) ∧
    (∀ st, OperationState.lookup op.state = some st →
      _send_job_status_message sa sp ra ss spt op none tls kf cf tr
        = (Except.error (PyError.typeError noneNotIterable), [])) := by
  unfold _send_job_status_message
  cases h : OperationState.lookup op.state <;> simp

/-- Witness for C9 at a concrete operation with a recognized state. -/
theorem dispatcher_rejects_none_notify_states_witness :
    OperationState.lookup "RUNNING" = some OperationState.RUNNING ∧
    _send_job_status_message "s" "p" ["r"] "h" "465"
      ⟨"1", "RUNNING", "d"⟩ none false none none
      (fun _ => SmtpOutcome.ok [])
      = (Except.error (PyError.typeError noneNotIterable), []) :=
  ⟨rfl, (dispatcher_rejects_none_notify_states "s" "p" ["r"] "h" "465"
    ⟨"1", "RUNNING", "d"⟩ false none none
    (fun _ => SmtpOutcome.ok [])).2.2 OperationState.RUNNING rfl⟩

/-- C2: with `timeout_seconds` set, an operation that never reaches a
terminal state makes `monitor_job` fail with the `Timeout` error once
the time budget is consumed; the timeout is the call's result, raised to
the caller, never swallowed. -/
theorem monitor_job_timeout_fatal (sa sp : String) (ra : List String)
    (ss spt : String) (fetch : Nat → Operation) (poll t : Nat)
    (ns : Option (List OperationState)) (tls : Bool)
    (kf cf : Option String) (tr : Transport) (fuel : Nat)
    (hpoll : 1 ≤ poll)
    (hstates : ∀ j, ∃ st,
      OperationState.lookup (fetch j).state = some st ∧
      st.isTerminal = false)
    (htr : ∀ c, ∃ rl, tr c = SmtpOutcome.ok rl)
    (hfuel : t + 1 ≤ fuel) :
    monitor_job sa sp ra ss spt fetch poll (some t) ns tls kf cf tr
      fuel = Except.error MonitorError.timeout := by
  unfold monitor_job monitor_job_common
  exact monitorFrom_timeout_of_no_terminal sa sp ra ss spt fetch poll t
    (ns.getD OperationState.allStates) tls kf cf tr hpoll hstates htr
    fuel 0 none 0 (Nat.zero_le t) (by omega)

/-- Witness for C2: the spec's boundary scenario with a 2-second budget,
a 5-second poll interval and an operation that stays RUNNING. -/
theorem monitor_job_timeout_fatal_witness :
    1 ≤ 5 ∧
    monitor_job "s" "p" ["r"] "h" "465"
      (fun _ => ⟨"1", "RUNNING", "d"⟩) 5 (some 2) none false none none
      (fun _ => SmtpOutcome.ok []) 10
      = Except.error MonitorError.timeout :=
  ⟨by decide,
    monitor_job_timeout_fatal "s" "p" ["r"] "h" "465"
      (fun _ => ⟨"1", "RUNNING", "d"⟩) 5 2 none false none none
      (fun _ => SmtpOutcome.ok []) 10 (by decide)
      (fun _ => ⟨OperationState.RUNNING, rfl, rfl⟩)
      (fun _ => ⟨[], rfl⟩) (by decide)⟩

/-- C10: the dispatcher leaves `raise_error` at `send_email`'s default
`True`: a transport-level SMTP failure during a notify-worthy dispatch
propagates as an exception, the dispatcher never returns the
suppressed-error descriptor for any transport, and no log `monitor_job`
returns ever contains one. -/
theorem monitoring_transport_errors_propagate (sa sp : String)
    (ra : List String) (ss spt : String) (op : Operation)
    (states : List OperationState) (tls : Bool) (kf cf : Option String)
    (tr : Transport) (st : OperationState) (e : String)
    (hst : OperationState.lookup op.state = some st)
    (hmem : st ∈ states) (htr : ∀ c, tr c = SmtpOutcome.exn e) :
    (_send_job_status_message sa sp ra ss spt op (some states) tls kf
        cf tr).1 = Except.error (PyError.smtpError e) ∧
    (∀ (tr2 : Transport) (ns : Option (List OperationState)) m t x c,
      (_send_job_status_message sa sp ra ss spt op ns tls kf cf
          tr2).1 ≠ Except.ok (some (m,
            DeliveryResult.errorDescriptor t x c))) ∧
    (∀ (tr2 : Transport) (fetch : Nat → Operation) poll tmo ns fuel log,
      monitor_job sa sp ra ss spt fetch poll tmo ns tls kf cf tr2 fuel
          = Except.ok log →
      ∀ pr ∈ log, ∀ t x c,
        pr.2 ≠ DeliveryResult.errorDescriptor t x c) := by
  refine ⟨?_, ?_, ?_⟩
  · unfold _send_job_status_message
    rw [hst]
    simp [hmem, send_email, htr]
  · intro tr2 ns m t x c hok
    obtain ⟨rl, hrl⟩ := dispatch_ok_refusals sa sp ra ss spt op ns tls
      kf cf tr2 m (DeliveryResult.errorDescriptor t x c) hok
    exact DeliveryResult.noConfusion hrl
  · intro tr2 fetch poll tmo ns fuel log hok
    exact monitorFrom_log_refusals sa sp ra ss spt fetch poll tmo
      (ns.getD OperationState.allStates) tls kf cf tr2 fuel 0 none 0
      log hok

/-- Witness for C10 at a concrete notify-worthy state and a transport
that raises. -/
theorem monitoring_transport_errors_propagate_witness :
    OperationState.lookup "FAILED" = some OperationState.FAILED ∧
    OperationState.FAILED ∈ [OperationState.FAILED] ∧
    (∀ c, (fun _ => SmtpOutcome.exn "boom" : Transport) c
      = SmtpOutcome.exn "boom") ∧
    (_send_job_status_message "s" "p" ["r"] "h" "465"
      ⟨"1", "FAILED", "d"⟩ (some [OperationState.FAILED]) false none
      none (fun _ => SmtpOutcome.exn "boom")).1
      = Except.error (PyError.smtpError "boom") :=
  ⟨rfl, List.mem_singleton.mpr rfl, fun _ => rfl,
    (monitoring_transport_errors_propagate "s" "p" ["r"] "h" "465"
      ⟨"1", "FAILED", "d"⟩ [OperationState.FAILED] false none none
      (fun _ => SmtpOutcome.exn "boom") OperationState.FAILED "boom"
      rfl (List.mem_singleton.mpr rfl) (fun _ => rfl)).1⟩

end TamrToolbox
